import Mathlib

/-!
Verification of the quantumin-solver calculus tutoring application.

The definitions below are a shallow embedding of the TypeScript sources
`src/utils/calculusEngine.ts` and `src/components/MathSolver.tsx`.
The external symbolic-algebra collaborators (Algebrite, mathsteps) are
modelled as oracle functions `String → Except String String` passed in
explicitly: `Except.error m` models a thrown JavaScript error with
message `m`.  JavaScript regular expressions used by the code are
modelled by specialised executable matchers whose behaviour matches the
backtracking semantics of the concrete patterns appearing in the source.
-/

/-- Does the second list start with the first (character-exact)?
Models matching a regex literal / testing a candidate position. -/
def leadsWith : List Char → List Char → Bool
  | [], _ => true
  | _ :: _, [] => false
  | p :: ps, c :: cs => p == c && leadsWith ps cs

/-- Does `pat` occur as a contiguous run anywhere in the list?
Models JavaScript `String.prototype.includes`. -/
def hasSub (pat : List Char) : List Char → Bool
  | [] => pat.isEmpty
  | c :: cs => leadsWith pat (c :: cs) || hasSub pat cs

/-- Models `s.includes(pat)` from the source. -/
def strContains (s pat : String) : Bool := hasSub pat.data s.data

/-- JavaScript regex `\s` character class (whitespace). -/
def jsSpace (c : Char) : Bool :=
  c = ' ' || c = '\t' || c = '\n' || c = '\r' || c = '\x0b' || c = '\x0c' ||
  c.val = 160 || c.val = 0x1680 || (0x2000 ≤ c.val && c.val ≤ 0x200a) ||
  c.val = 0x2028 || c.val = 0x2029 || c.val = 0x202f || c.val = 0x205f ||
  c.val = 0x3000 || c.val = 0xfeff

/-- JavaScript regex `\w` character class: `[A-Za-z0-9_]`. -/
def wordChar (c : Char) : Bool := c.isAlphanum || c = '_'

/-- JavaScript line terminators, which `.` does not match. -/
def lineTerm (c : Char) : Bool :=
  c = '\n' || c = '\r' || c.val = 0x2028 || c.val = 0x2029

/-!
Matcher for the implicit-differentiation test in `detectCalculusType`:
`expr.match(/\b\w+\(\w+\)\s*=.*d\w+\/d\w+/)` (truthiness test only).

Because every `\w+` / `\s*` in the pattern is followed by a character
outside its class, greedy matching is forced and the existence of a
match can be decided by a single left-to-right scan at each candidate
start position.
-/

/-- Does `d\w+\/d\w+` match exactly at the head of the list? -/
def tailMatch : List Char → Bool
  | [] => false
  | c :: rest =>
    c == 'd' &&
    !(rest.takeWhile wordChar).isEmpty &&
    (match rest.dropWhile wordChar with
     | '/' :: 'd' :: r2 => !(r2.takeWhile wordChar).isEmpty
     | _ => false)

/-- Does `.*d\w+\/d\w+` match at the head: the tail pattern occurs at
some position reachable without crossing a line terminator. -/
def dotStarTail : List Char → Bool
  | [] => false
  | c :: rest => tailMatch (c :: rest) || (!lineTerm c && dotStarTail rest)

/-- Does `\w+\(\w+\)\s*=.*d\w+\/d\w+` match exactly at the head. -/
def headMatch (l : List Char) : Bool :=
  !(l.takeWhile wordChar).isEmpty &&
  (match l.dropWhile wordChar with
   | '(' :: r1 =>
     !(r1.takeWhile wordChar).isEmpty &&
     (match r1.dropWhile wordChar with
      | ')' :: r2 =>
        (match r2.dropWhile jsSpace with
         | '=' :: r3 => dotStarTail r3
         | _ => false)
      | _ => false)
   | _ => false)

/-- Scan all positions; `prev` is the character before the current
position, for the word-boundary test `\b` (the pattern then starts with
`\w+`, so the boundary holds exactly when `prev` is not a word char). -/
def scanAux : Option Char → List Char → Bool
  | _, [] => false
  | prev, c :: rest =>
    ((match prev with | none => true | some p => !wordChar p) &&
      headMatch (c :: rest)) || scanAux (some c) rest

/-- Models `expr.match(/\b\w+\(\w+\)\s*=.*d\w+\/d\w+/)` as a Bool. -/
def implicitMatch (s : String) : Bool := scanAux none s.data

/-- `CalculusEngine.detectCalculusType` from `calculusEngine.ts`. -/
def detectCalculusType (expr : String) : String :=
  if strContains expr "d/dx" || strContains expr "derivative" then "Derivative"
  else if strContains expr "integral" || strContains expr "∫" then "Integral"
  else if strContains expr "limit" then "Limit"
  else if strContains expr "∂" then "Partial Derivative"
  else if implicitMatch expr then "Implicit Differentiation"
  else if strContains expr "x^2" || strContains expr "**2" then "Quadratic"
  else if strContains expr "sin" || strContains expr "cos" || strContains expr "tan" then "Trigonometric"
  else if strContains expr "log" || strContains expr "ln" then "Logarithmic"
  else if strContains expr "=" then "Equation"
  else "Expression"

/-- The fixed closed set of category labels. -/
def calculusLabels : List String :=
  ["Derivative", "Integral", "Limit", "Partial Derivative",
   "Implicit Differentiation", "Quadratic", "Trigonometric",
   "Logarithmic", "Equation", "Expression"]

/-- C1: the classifier is total and deterministic with values in the
fixed label set, and the `d/dx` check has first-match precedence: any
input containing both `sin(x^2)` and `d/dx` is classified `Derivative`
because the `d/dx` check runs first. -/
theorem detectCalculusType_total_and_ordered (e : String) :
    detectCalculusType e ∈ calculusLabels ∧
    (strContains e "sin(x^2)" = true → strContains e "d/dx" = true →
      detectCalculusType e = "Derivative") := by
  constructor
  · unfold detectCalculusType calculusLabels
    split_ifs <;> simp
  · intro _ hd
    unfold detectCalculusType
    rw [hd]
    simp

/-- Witness for C1 at the concrete input `d/dx(sin(x^2))`. -/
theorem detectCalculusType_total_and_ordered_witness :
    detectCalculusType "d/dx(sin(x^2))" ∈ calculusLabels ∧
    detectCalculusType "d/dx(sin(x^2))" = "Derivative" := by
  refine ⟨(detectCalculusType_total_and_ordered "d/dx(sin(x^2))").1, ?_⟩
  exact (detectCalculusType_total_and_ordered "d/dx(sin(x^2))").2
    (by decide) (by decide)

example : detectCalculusType "x^2 + y^2 = 25" = "Quadratic" := by decide
example : detectCalculusType "f(x) = dy/dx" = "Implicit Differentiation" := by decide
example : detectCalculusType "hello" = "Expression" := by decide

/-!
Models of the regex replacements used to compute the clean expression.

`expr.replace(/LIT\s*\(?(.*?)\)?/, $1)` (`LIT` one of `d/dx`,
`derivative`, `integral`): every element after the lazy group `(.*?)` is
optional, so the regex engine never needs to grow the group and the
capture is always empty.  The match is anchored at the leftmost
occurrence of the literal, then greedily consumes the whitespace run,
one `(` if present, and one `)` if present; the replacement deletes the
matched span.
-/

/-- One replacement pass: returns `some` of the transformed character
list when the pattern `LIT\s*\(?\)?` (with empty capture) matches at
this position or later, `none` when the literal does not occur. -/
def replaceWrapAux (lit : List Char) : List Char → Option (List Char)
  | [] => none
  | c :: rest =>
    if leadsWith lit (c :: rest) then
      let r1 := ((c :: rest).drop lit.length).dropWhile jsSpace
      let r2 := match r1 with | '(' :: t => t | _ => r1
      let r3 := match r2 with | ')' :: t => t | _ => r2
      some r3
    else
      (replaceWrapAux lit rest).map (c :: ·)

/-- Models `s.replace(/LIT\s*\(?(.*?)\)?/, $1)`. -/
def replaceWrap (lit s : String) : String :=
  match replaceWrapAux lit.data s.data with
  | some l => ⟨l⟩
  | none => s

/-!
Model of `s.replace(/∫\s*(.*?)\s*dx/, $1)`.  Here the lazy group is
followed by `\s*dx`, which can fail, so the group grows to the first
position from which trailing whitespace followed by `dx` matches.
Shrinking the leading `\s*` can never reveal new matches (the extra
positions it exposes sit inside the whitespace run, from which the
continuation behaves identically), so the leading run is consumed
greedily and only the group is scanned.
-/

/-- Continuation `\s*dx`: greedy whitespace then the literal `dx`
(forced, since a shorter whitespace run would put a whitespace character
where `d` is required).  Returns the remainder after `dx`. -/
def contDx (l : List Char) : Option (List Char) :=
  match l.dropWhile jsSpace with
  | 'd' :: 'x' :: r => some r
  | _ => none

/-- Lazy scan for the group `(.*?)` before `\s*dx`: smallest group for
which the continuation matches.  Returns (group, remainder after dx). -/
def lazyScan : List Char → Option (List Char × List Char)
  | [] => none
  | c :: rest =>
    match contDx (c :: rest) with
    | some r => some ([], r)
    | none => (lazyScan rest).map (fun p => (c :: p.1, p.2))

/-- One replacement pass for `/∫\s*(.*?)\s*dx/` with replacement `$1`. -/
def intSignReplaceAux : List Char → Option (List Char)
  | [] => none
  | c :: rest =>
    if c == '∫' then
      match lazyScan (rest.dropWhile jsSpace) with
      | some (g, r) => some (g ++ r)
      | none => (intSignReplaceAux rest).map (c :: ·)
    else
      (intSignReplaceAux rest).map (c :: ·)

/-- Models `s.replace(/∫\s*(.*?)\s*dx/, $1)`. -/
def intSignReplace (s : String) : String :=
  match intSignReplaceAux s.data with
  | some l => ⟨l⟩
  | none => s

/-- The clean expression computed in `solveDerivative`, line 42:
`expr.replace(/d\/dx\s*\(?(.*?)\)?/, $1).replace(/derivative\s*\(?(.*?)\)?/, $1)`. -/
def cleanDerivExpr (expr : String) : String :=
  replaceWrap "derivative" (replaceWrap "d/dx" expr)

/-- The clean expression computed in `solveIntegral`, line 62:
`expr.replace(/integral\s*\(?(.*?)\)?/, $1).replace(/∫\s*(.*?)\s*dx/, $1)`. -/
def cleanIntegralExpr (expr : String) : String :=
  intSignReplace (replaceWrap "integral" expr)

example : cleanDerivExpr "d/dx(x^2)" = "x^2)" := by decide
example : cleanDerivExpr "d/dx(" = "" := by decide
example : cleanIntegralExpr "integral(x^2)" = "x^2)" := by decide
example : cleanIntegralExpr "∫ x^2 dx" = "x^2" := by decide

/-! The data model: `CalculusStep` and `CalculusSolution` records. -/

/-- `CalculusStep` from `calculusEngine.ts` (field `step` is the ordinal
label; `method` is optional and in fact never set by the code). -/
structure CalculusStep where
  step : String
  expression : String
  explanation : String
  method : Option String := none
deriving DecidableEq, Repr

/-- `CalculusSolution` from `calculusEngine.ts`. -/
structure CalculusSolution where
  original : String
  result : String
  steps : List CalculusStep
  type : String
  method : Option String := none
deriving DecidableEq, Repr

/-- `CalculusEngine.needsIntegrationByParts`. -/
def needsIntegrationByParts (expr : String) : Bool :=
  strContains expr "x" &&
    (strContains expr "sin" || strContains expr "cos" ||
     strContains expr "e^" || strContains expr "ln")

/-- `CalculusEngine.needsSubstitution`. -/
def needsSubstitution (expr : String) : Bool :=
  strContains expr "(" &&
    (strContains expr "sin" || strContains expr "cos" || strContains expr "^")

/-- `CalculusEngine.detectIntegrationMethod`. -/
def detectIntegrationMethod (expr : String) : String :=
  if needsIntegrationByParts expr then "Integration by Parts"
  else if needsSubstitution expr then "U-Substitution"
  else if strContains expr "sin" || strContains expr "cos" then "Trigonometric Integration"
  else if strContains expr "1/(x^2" then "Partial Fractions"
  else "Power Rule"

/-- `CalculusEngine.generateDerivativeSteps`.  Note the power-rule and
trigonometric method steps are appended by two independent `if`
statements (not `else if`), both labelled step `2`. -/
def generateDerivativeSteps (expr result : String) : List CalculusStep :=
  let s1 : List CalculusStep :=
    [⟨"1", "d/dx(" ++ expr ++ ")", "Find the derivative of the given function", none⟩]
  let s2 :=
    if strContains expr "^" then
      s1 ++ [⟨"2", "Apply power rule: d/dx(x^n) = n·x^(n-1)",
              "Use the power rule for differentiation", none⟩]
    else s1
  let s3 :=
    if strContains expr "sin" || strContains expr "cos" then
      s2 ++ [⟨"2", "Apply trigonometric rules",
              "d/dx(sin(x)) = cos(x), d/dx(cos(x)) = -sin(x)", none⟩]
    else s2
  s3 ++ [⟨toString (s3.length + 1), result, "Final derivative", none⟩]

/-- `CalculusEngine.generateIntegralSteps`.  Here the method step is an
`if / else if / else if` chain, so at most one is appended. -/
def generateIntegralSteps (expr result : String) : List CalculusStep :=
  let s1 : List CalculusStep :=
    [⟨"1", "∫ " ++ expr ++ " dx", "Find the indefinite integral", none⟩]
  let s2 :=
    if strContains expr "x^" then
      s1 ++ [⟨"2", "Apply power rule: ∫ x^n dx = x^(n+1)/(n+1)",
              "Use the power rule for integration", none⟩]
    else if needsSubstitution expr then
      s1 ++ [⟨"2", "Use substitution method",
              "Let u = inner function, du = derivative dx", none⟩]
    else if needsIntegrationByParts expr then
      s1 ++ [⟨"2", "Use integration by parts: ∫ u dv = uv - ∫ v du",
              "Choose u and dv appropriately", none⟩]
    else s1
  s2 ++ [⟨toString (s2.length + 1), result ++ " + C",
          "Final integral with constant of integration", none⟩]

/-- JavaScript split on the `=` character: split on every occurrence. -/
def splitEq : List Char → List (List Char)
  | [] => [[]]
  | '=' :: rest => [] :: splitEq rest
  | c :: rest =>
    match splitEq rest with
    | [] => [[c]]
    | p :: ps => (c :: p) :: ps

/-- JavaScript split on `=`, on strings. -/
def strSplitEq (s : String) : List String :=
  (splitEq s.data).map (fun l => ⟨l⟩)

/-- JavaScript `s.trim()`: strip whitespace from both ends. -/
def trimJS (s : String) : String :=
  ⟨((s.data.dropWhile jsSpace).reverse.dropWhile jsSpace).reverse⟩

/-- `CalculusEngine.generateImplicitSteps`. -/
def generateImplicitSteps (original leftD rightD result : String) : List CalculusStep :=
  let parts := strSplitEq original
  [⟨"1", original, "Original equation", none⟩,
   ⟨"2", "d/dx(" ++ parts.getD 0 "" ++ ") = d/dx(" ++ parts.getD 1 "" ++ ")",
    "Take derivative of both sides with respect to x", none⟩,
   ⟨"3", leftD ++ " = " ++ rightD, "Apply chain rule to terms involving y", none⟩,
   ⟨"4", "dy/dx = " ++ result, "Solve for dy/dx", none⟩]

/-!
The external collaborators.  Algebrite and mathsteps are third-party
libraries treated as opaque: each call either returns a string (or a
list of simplification steps) or throws, modelled with `Except` where
the error component is the thrown message.
-/

/-- One simplification step returned by `mathsteps.simplifyExpression`.
`newNode` is the optional resulting AST node (stringified when present,
otherwise the step object itself is stringified), `changeType` the
change description (`null`, `undefined` or the empty string fall back to
a default, matching JavaScript truthiness). -/
structure SimplifyStep where
  newNode : Option String
  selfText : String
  changeType : Option String
deriving DecidableEq, Repr

/-- The bundle of external symbolic-computation collaborators. -/
structure Oracles where
  /-- `Algebrite.derivative(expr, x).toString()` -/
  deriv : String → Except String String
  /-- `Algebrite.integral(expr, x).toString()` -/
  integ : String → Except String String
  /-- `Algebrite.solve(equation, variable).toString()` -/
  solveFor : String → String → Except String String
  /-- `Algebrite.run(expr).toString()` -/
  run : String → Except String String
  /-- `mathsteps.simplifyExpression(expr)` -/
  simplify : String → Except String (List SimplifyStep)

/-- JavaScript `a || d` on a possibly-absent string: `null`, `undefined`
and `""` are falsy. -/
def jsOrEmpty (o : Option String) (d : String) : String :=
  match o with
  | none => d
  | some s => if s = "" then d else s

/-- `CalculusEngine.solveDerivative`: strip the wrapper, delegate to the
collaborator, synthesize steps; any thrown error is caught and replaced
by the fixed message. -/
def solveDerivative (deriv : String → Except String String) (expr : String) :
    Except String CalculusSolution :=
  let cleanExpr := cleanDerivExpr expr
  match deriv cleanExpr with
  | .ok result =>
    .ok { original := expr, result := result,
          steps := generateDerivativeSteps cleanExpr result,
          type := "Derivative", method := some "Power Rule / Chain Rule" }
  | .error _ => .error "Failed to compute derivative"

/-- `CalculusEngine.solveIntegral`: the final result string is the
collaborator output with `" + C"` appended. -/
def solveIntegral (integ : String → Except String String) (expr : String) :
    Except String CalculusSolution :=
  let cleanExpr := cleanIntegralExpr expr
  match integ cleanExpr with
  | .ok result =>
    .ok { original := expr, result := result ++ " + C",
          steps := generateIntegralSteps cleanExpr result,
          type := "Integral", method := some (detectIntegrationMethod cleanExpr) }
  | .error _ => .error "Failed to compute integral"

/-- `CalculusEngine.solveImplicitDifferentiation`: split on `=`, take
the derivative of each trimmed side, solve the derived equation for
`dy/dx`.  Any thrown error (including the `undefined.trim()` TypeError
when the input has no `=`) is caught and replaced by the fixed
message. -/
def solveImplicitDifferentiation (o : Oracles) (expr : String) :
    Except String CalculusSolution :=
  match strSplitEq expr with
  | l :: r :: _ =>
    (match o.deriv (trimJS l) with
     | .error _ => .error "Failed to solve implicit differentiation"
     | .ok leftD =>
       match o.deriv (trimJS r) with
       | .error _ => .error "Failed to solve implicit differentiation"
       | .ok rightD =>
         match o.solveFor (leftD ++ " = " ++ rightD) "dy/dx" with
         | .error _ => .error "Failed to solve implicit differentiation"
         | .ok result =>
           .ok { original := expr, result := result,
                 steps := generateImplicitSteps expr leftD rightD result,
                 type := "Implicit Differentiation", method := some "Chain Rule" })
  | _ => .error "Failed to solve implicit differentiation"

/-- The `steps.map((step, index) => ...)` conversion of mathsteps output
in the general branch of `CalculusEngine.solveExpression`. -/
def mapSimplifySteps : Nat → List SimplifyStep → List CalculusStep
  | _, [] => []
  | i, s :: rest =>
    ⟨toString (i + 1), s.newNode.getD s.selfText,
     jsOrEmpty s.changeType "Simplification step", none⟩ :: mapSimplifySteps (i + 1) rest

/-- The general (`else`) branch of `CalculusEngine.solveExpression`:
try mathsteps plus `Algebrite.run`; if anything in that inner `try`
throws, fall back to `Algebrite.run` alone (whose error, if any,
propagates to the outer catch with its own message). -/
def generalSolve (o : Oracles) (t expr : String) : Except String CalculusSolution :=
  let attempt : Except String CalculusSolution :=
    match o.simplify expr with
    | .error e => .error e
    | .ok steps =>
      match o.run expr with
      | .error e => .error e
      | .ok result =>
        .ok { original := expr, result := result,
              steps := mapSimplifySteps 0 steps,
              type := t, method := some "Algebraic Simplification" }
  match attempt with
  | .ok s => .ok s
  | .error _ =>
    match o.run expr with
    | .error e => .error e
    | .ok result =>
      .ok { original := expr, result := result,
            steps := [⟨"1", expr, "Original expression", none⟩,
                      ⟨"2", result, "Evaluated result", none⟩],
            type := t, method := some "Direct Evaluation" }

/-- The outer catch of `CalculusEngine.solveExpression`:
`throw new Error("Failed to solve: " + error.message)`. -/
def wrapOuter (r : Except String CalculusSolution) : Except String CalculusSolution :=
  match r with
  | .ok s => .ok s
  | .error m => .error ("Failed to solve: " ++ m)

/-- `CalculusEngine.solveExpression`: classify, route to the matching
solver, wrap any thrown error with the outer catch. -/
def engineSolve (o : Oracles) (expr : String) : Except String CalculusSolution :=
  let t := detectCalculusType expr
  let body :=
    if t = "Derivative" then solveDerivative o.deriv expr
    else if t = "Integral" then solveIntegral o.integ expr
    else if t = "Implicit Differentiation" then solveImplicitDifferentiation o expr
    else generalSolve o t expr
  wrapOuter body

/-!
The UI shell (`MathSolver.tsx`): the state the solve action touches is
the displayed solution and the bounded history list.
-/

/-- The `MathSolver` component state relevant to the solve action. -/
structure UIState where
  solution : Option CalculusSolution
  history : List CalculusSolution
deriving DecidableEq, Repr

/-- The `setHistory` updater on a successful solve, line 57:
`prev => [newSolution, ...prev.slice(0, 9)]`. -/
def pushHistory (sol : CalculusSolution) (prev : List CalculusSolution) :
    List CalculusSolution :=
  sol :: prev.take 9

/-- `MathSolver.isNaturalLanguageInput`, lines 69-75 (the
`mathFunctions` regex it declares is never used in the returned
condition). -/
def mathSymbolsTest (s : String) : Bool :=
  s.data.any (fun c =>
    c == '+' || c == '-' || c == '*' || c == '/' || c == '^' ||
    c == '(' || c == ')' || c == '=' || c == '∫' || c == '∂')

/-- The natural-language word list of the regex
`\b(find|solve|what|is|the|of|derivative|integral|integrate|differentiate)\b` -/
def nlWords : List (List Char) :=
  ["find".data, "solve".data, "what".data, "is".data, "the".data, "of".data,
   "derivative".data, "integral".data, "integrate".data, "differentiate".data]

/-- Case-insensitive literal match at the head (the `i` flag). -/
def leadsWithCI : List Char → List Char → Bool
  | [], _ => true
  | _ :: _, [] => false
  | p :: ps, c :: cs => p.toLower == c.toLower && leadsWithCI ps cs

/-- One word with a trailing word boundary matches at the head. -/
def wordAt (w l : List Char) : Bool :=
  leadsWithCI w l &&
  (match l.drop w.length with
   | [] => true
   | c :: _ => !wordChar c)

/-- Scan for any listed word with word boundaries on both sides (the
words start and end with letters, so each boundary reduces to the
neighbouring character not being a word character). -/
def scanWords : Option Char → List Char → Bool
  | _, [] => false
  | prev, c :: rest =>
    ((match prev with | none => true | some p => !wordChar p) &&
      nlWords.any (fun w => wordAt w (c :: rest))) || scanWords (some c) rest

/-- `naturalLanguageWords.test(input)`. -/
def nlWordsTest (s : String) : Bool := scanWords none s.data

/-- `MathSolver.isNaturalLanguageInput` exactly as the source computes
it: `naturalLanguageWords.test(input) && (!mathSymbols.test(input) ||
naturalLanguageWords.test(input))`. -/
def isNaturalLanguageInput (input : String) : Bool :=
  nlWordsTest input && (!mathSymbolsTest input || nlWordsTest input)

/-- `MathSolver.solveExpression` (the component action): optional
natural-language bridging when an LLM service is configured, then the
engine; on success the solution is stored and pushed onto the history,
on any thrown error the state is left unchanged (the catch only shows a
toast). -/
def uiSolve (llm : Option (String → Except String String)) (o : Oracles)
    (st : UIState) (input : String) : UIState :=
  if trimJS input = "" then st
  else
    let finalExpr : Except String String :=
      match llm with
      | some f => if isNaturalLanguageInput input then f input else .ok input
      | none => .ok input
    match finalExpr with
    | .error _ => st
    | .ok fe =>
      match engineSolve o fe with
      | .ok sol => { solution := some sol, history := pushHistory sol st.history }
      | .error _ => st

/-!  Theorems settling the claims. -/

/-- Modelled from the claim: the natural-language predicate as the
word-regex test alone, for comparison with the source condition. -/
def isNaturalLanguageInputSpec (input : String) : Bool := nlWordsTest input

/-- C10: the source condition `words && (!symbols || words)` collapses
to the word test alone, so mathematical symbols never prevent an input
containing the listed words from being sent to the language bridge. -/
theorem isNaturalLanguageInput_eq_words_test (s : String) :
    isNaturalLanguageInput s = isNaturalLanguageInputSpec s := by
  unfold isNaturalLanguageInput isNaturalLanguageInputSpec
  cases h1 : nlWordsTest s <;> cases h2 : mathSymbolsTest s <;> simp

/-- The history after a sequence of successful solves, newest pushed
each time, starting from the empty list. -/
def histAfter (sols : List CalculusSolution) : List CalculusSolution :=
  sols.foldl (fun h s => pushHistory s h) []

lemma pushHistory_foldl (sols : List CalculusSolution) :
    ∀ acc, acc.length ≤ 10 →
      sols.foldl (fun h s => pushHistory s h) acc = (sols.reverse ++ acc).take 10 := by
  induction sols with
  | nil =>
    intro acc hacc
    simpa using (List.take_of_length_le hacc).symm
  | cons s rest ih =>
    intro acc hacc
    simp only [List.foldl_cons, List.reverse_cons]
    rw [ih (pushHistory s acc)
        (by simp only [pushHistory, List.length_cons, List.length_take]; omega)]
    show (rest.reverse ++ (s :: acc.take 9)).take 10 = ((rest.reverse ++ [s]) ++ acc).take 10
    have e1 : rest.reverse ++ (s :: acc.take 9) = (rest.reverse ++ [s]) ++ acc.take 9 := by
      simp
    rw [e1]
    simp only [List.take_append_eq_append_take, List.take_take, List.length_append,
      List.length_reverse, List.length_cons, List.length_nil]
    congr 1
    congr 1
    omega

/-- C2: starting from empty, after the solves in `sols` (oldest first)
the history is the last ten solutions newest first; its length is
`min N 10` and never exceeds ten, the eleventh solve evicting the
oldest. -/
theorem history_retention (sols : List CalculusSolution) :
    histAfter sols = sols.reverse.take 10 ∧
    (histAfter sols).length = min sols.length 10 ∧
    (histAfter sols).length ≤ 10 := by
  have h : histAfter sols = sols.reverse.take 10 := by
    unfold histAfter; rw [pushHistory_foldl sols [] (by simp)]; simp
  refine ⟨h, ?_, ?_⟩ <;> rw [h]
  · rw [List.length_take, List.length_reverse, Nat.min_comm]
  · simp [List.length_take]

/-- C7: evaluation at the failing inputs.  The clean-expression regex
for derivatives has only optional elements after the lazy capture
group, so the capture is always empty and the replacement deletes just
the head `d/dx(` of the wrapper: the collaborator receives `x^2)` with
a dangling parenthesis rather than the body `x^2`; for integrals
likewise. -/
theorem cleanExpr_keeps_trailing_paren :
    cleanDerivExpr "d/dx(x^2)" = "x^2)" ∧
    cleanDerivExpr "d/dx(x^2)" ≠ "x^2" ∧
    cleanIntegralExpr "integral(x^2)" = "x^2)" ∧
    cleanIntegralExpr "integral(x^2)" ≠ "x^2" := by decide

/-- C6 counterexample: for the clean expression `sin(x^2)` (from the
application example `d/dx(sin(x^2))`) the derivative step synthesizer
emits both the power-rule and the trigonometric method steps, giving a
four-step list, contradicting the claimed bound of three. -/
theorem derivative_steps_four_cex :
    (generateDerivativeSteps "sin(x^2)" "2*x*cos(x^2)").length = 4 ∧
    ¬((generateDerivativeSteps "sin(x^2)" "2*x*cos(x^2)").length ≤ 3) := by decide

/-- C6 amended: the integral synthesizer behaves as claimed (opening
step, at most one method step from an if/else chain, closing step with
the final result, hence two or three steps); the derivative synthesizer
appends its power-rule and trigonometric method steps independently, so
it produces between two and four steps, with the exact count determined
by the two substring tests. -/
theorem step_counts_amended (expr result : String) :
    (generateDerivativeSteps expr result).length =
      2 + (if strContains expr "^" then 1 else 0)
        + (if strContains expr "sin" || strContains expr "cos" then 1 else 0) ∧
    (generateDerivativeSteps expr result).head? =
      some ⟨"1", "d/dx(" ++ expr ++ ")", "Find the derivative of the given function", none⟩ ∧
    ((generateDerivativeSteps expr result).getLast?.map CalculusStep.expression) =
      some result ∧
    (generateIntegralSteps expr result).length =
      (if strContains expr "x^" || needsSubstitution expr || needsIntegrationByParts expr
       then 3 else 2) ∧
    (generateIntegralSteps expr result).head? =
      some ⟨"1", "∫ " ++ expr ++ " dx", "Find the indefinite integral", none⟩ ∧
    ((generateIntegralSteps expr result).getLast?.map CalculusStep.expression) =
      some (result ++ " + C") := by
  unfold generateDerivativeSteps generateIntegralSteps
  cases h1 : strContains expr "^" <;>
    cases h2 : (strContains expr "sin" || strContains expr "cos") <;>
      cases h3 : strContains expr "x^" <;>
        cases h4 : needsSubstitution expr <;>
          cases h5 : needsIntegrationByParts expr <;>
            simp [h1, h2, h3, h4, h5, List.getLast?_concat]

/-- C3: whenever `solveIntegral` succeeds, the result string is the
collaborator output with `" + C"` appended; whenever `solveDerivative`
succeeds, the result string is exactly the collaborator output, with
nothing appended. -/
theorem integral_appends_C_derivative_not
    (integ deriv : String → Except String String) (e1 e2 : String)
    (s1 s2 : CalculusSolution)
    (h1 : solveIntegral integ e1 = .ok s1)
    (h2 : solveDerivative deriv e2 = .ok s2) :
    (∃ r, integ (cleanIntegralExpr e1) = .ok r ∧ s1.result = r ++ " + C") ∧
    deriv (cleanDerivExpr e2) = .ok s2.result := by
  constructor
  · simp only [solveIntegral] at h1
    cases hI : integ (cleanIntegralExpr e1) with
    | error m => rw [hI] at h1; cases h1
    | ok r =>
      rw [hI] at h1
      injection h1 with h1
      exact ⟨r, rfl, by rw [← h1]⟩
  · simp only [solveDerivative] at h2
    cases hD : deriv (cleanDerivExpr e2) with
    | error m => rw [hD] at h2; cases h2
    | ok r =>
      rw [hD] at h2
      injection h2 with h2
      rw [← h2]

/-- Collaborator bundle for success scenarios in witnesses. -/
def oracleOk : Oracles where
  deriv := fun _ => .ok "2*x"
  integ := fun _ => .ok "x^3/3"
  solveFor := fun _ _ => .ok "0"
  run := fun s => .ok s
  simplify := fun _ => .ok []

/-- The solution record produced by `solveIntegral` on `integral(x^2)`
with `oracleOk`. -/
def solIntegralW : CalculusSolution :=
  { original := "integral(x^2)", result := "x^3/3 + C",
    steps := generateIntegralSteps "x^2)" "x^3/3",
    type := "Integral", method := some (detectIntegrationMethod "x^2)") }

/-- The solution record produced by `solveDerivative` on `d/dx(x^3)`
with `oracleOk`. -/
def solDerivativeW : CalculusSolution :=
  { original := "d/dx(x^3)", result := "2*x",
    steps := generateDerivativeSteps "x^3)" "2*x",
    type := "Derivative", method := some "Power Rule / Chain Rule" }

/-- Witness for C3 at an integral of `x^2` and a concrete derivative. -/
theorem integral_appends_C_derivative_not_witness :
    (∃ r, oracleOk.integ (cleanIntegralExpr "integral(x^2)") = .ok r ∧
      solIntegralW.result = r ++ " + C") ∧
    oracleOk.deriv (cleanDerivExpr "d/dx(x^3)") = .ok solDerivativeW.result :=
  integral_appends_C_derivative_not oracleOk.integ oracleOk.deriv
    "integral(x^2)" "d/dx(x^3)" solIntegralW solDerivativeW rfl rfl

/-- C4: when the classifier routes an input to the derivative solver
and the derivative collaborator throws (as on the malformed `d/dx(`),
the solver throws the fixed generic message, the engine re-raises it
under the outer wrapper, and the UI solve action leaves the state (in
particular the history list) unchanged: no partial record is added. -/
theorem malformed_derivative_atomicity
    (o : Oracles) (st : UIState) (input m : String)
    (htype : detectCalculusType input = "Derivative")
    (hthrow : o.deriv (cleanDerivExpr input) = .error m) :
    solveDerivative o.deriv input = .error "Failed to compute derivative" ∧
    engineSolve o input = .error "Failed to solve: Failed to compute derivative" ∧
    uiSolve none o st input = st := by
  have hsd : solveDerivative o.deriv input = .error "Failed to compute derivative" := by
    simp only [solveDerivative]
    rw [hthrow]
  have hes : engineSolve o input = .error "Failed to solve: Failed to compute derivative" := by
    unfold engineSolve
    rw [htype]
    simp [hsd, wrapOuter]
  refine ⟨hsd, hes, ?_⟩
  unfold uiSolve
  split
  · rfl
  · simp [hes]

/-- Collaborator bundle whose every call throws, for failure-scenario
witnesses. -/
def oracleFail : Oracles where
  deriv := fun _ => .error "parse error"
  integ := fun _ => .error "parse error"
  solveFor := fun _ _ => .error "parse error"
  run := fun _ => .error "parse error"
  simplify := fun _ => .error "parse error"

/-- Witness for C4 at the malformed input `d/dx(`. -/
theorem malformed_derivative_atomicity_witness :
    solveDerivative oracleFail.deriv "d/dx(" = .error "Failed to compute derivative" ∧
    engineSolve oracleFail "d/dx(" = .error "Failed to solve: Failed to compute derivative" ∧
    uiSolve none oracleFail ⟨none, []⟩ "d/dx(" = ⟨none, []⟩ :=
  malformed_derivative_atomicity oracleFail ⟨none, []⟩ "d/dx(" "parse error"
    (by decide) rfl

/-- Collaborators failing with one concrete cause. -/
def oracleMsgA : Oracles where
  deriv := fun _ => .error "e"
  integ := fun _ => .error "e"
  solveFor := fun _ _ => .error "e"
  run := fun _ => .error "parse failure near token 3"
  simplify := fun _ => .error "mathsteps cannot parse"

/-- Collaborators failing with a different cause. -/
def oracleMsgB : Oracles where
  deriv := fun _ => .error "e"
  integ := fun _ => .error "e"
  solveFor := fun _ _ => .error "e"
  run := fun _ => .error "unsupported expression"
  simplify := fun _ => .error "mathsteps cannot parse"

/-- C5 counterexample: on the general path (input `1+1`, classified
`Expression`), the error the public entry point re-raises embeds the
collaborator message verbatim, so two different failure causes
yield two different errors — the failure is not reduced to a single
generic message with no finer-grained classification. -/
theorem flat_error_taxonomy_cex :
    engineSolve oracleMsgA "1+1" = .error "Failed to solve: parse failure near token 3" ∧
    engineSolve oracleMsgB "1+1" = .error "Failed to solve: unsupported expression" ∧
    engineSolve oracleMsgA "1+1" ≠ engineSolve oracleMsgB "1+1" := by
  refine ⟨rfl, rfl, ?_⟩
  intro h
  rw [show engineSolve oracleMsgA "1+1"
        = .error "Failed to solve: parse failure near token 3" from rfl,
      show engineSolve oracleMsgB "1+1"
        = .error "Failed to solve: unsupported expression" from rfl] at h
  injection h with h
  exact absurd h (by decide)

lemma implicit_error_msg (o : Oracles) (e : String)
    (h : (solveImplicitDifferentiation o e).isOk = false) :
    solveImplicitDifferentiation o e = .error "Failed to solve implicit differentiation" := by
  unfold solveImplicitDifferentiation at h ⊢
  rcases hsp : strSplitEq e with _ | ⟨l, _ | ⟨r, rest⟩⟩
  · rfl
  · rfl
  · rw [hsp] at h
    cases hd1 : o.deriv (trimJS l) with
    | error m => simp [hd1]
    | ok ld =>
      simp only [hd1] at h ⊢
      cases hd2 : o.deriv (trimJS r) with
      | error m => simp [hd2]
      | ok rd =>
        simp only [hd2] at h ⊢
        cases hd3 : o.solveFor (ld ++ " = " ++ rd) "dy/dx" with
        | error m => simp [hd3]
        | ok res =>
          simp only [hd3, Except.isOk, Except.toBool] at h
          exact absurd h (by decide)

/-- C5 amended: inside the derivative, integral and
implicit-differentiation solvers, any collaborator error is caught and
re-raised (through the outer wrapper) as a fixed per-solver generic
message that carries no information about the failure cause; on the
general path, however, the collaborator message is propagated inside
the re-raised error (see the counterexample), so the flat taxonomy
holds only for the three calculus solvers. -/
theorem solver_errors_generic_amended
    (o : Oracles) (e1 e2 e3 m1 m2 : String)
    (h1 : detectCalculusType e1 = "Derivative")
    (f1 : o.deriv (cleanDerivExpr e1) = .error m1)
    (h2 : detectCalculusType e2 = "Integral")
    (f2 : o.integ (cleanIntegralExpr e2) = .error m2)
    (h3 : detectCalculusType e3 = "Implicit Differentiation")
    (f3 : (solveImplicitDifferentiation o e3).isOk = false) :
    engineSolve o e1 = .error "Failed to solve: Failed to compute derivative" ∧
    engineSolve o e2 = .error "Failed to solve: Failed to compute integral" ∧
    engineSolve o e3 = .error "Failed to solve: Failed to solve implicit differentiation" := by
  refine ⟨?_, ?_, ?_⟩
  · unfold engineSolve
    rw [h1]
    have : solveDerivative o.deriv e1 = .error "Failed to compute derivative" := by
      simp only [solveDerivative]; rw [f1]
    simp [this, wrapOuter]
  · unfold engineSolve
    rw [h2]
    have : solveIntegral o.integ e2 = .error "Failed to compute integral" := by
      simp only [solveIntegral]; rw [f2]
    simp [this, wrapOuter]
  · unfold engineSolve
    rw [h3]
    simp [implicit_error_msg o e3 f3, wrapOuter]

/-- Witness for C5 amended: all three solvers at concrete failing
inputs with the everywhere-failing collaborators. -/
theorem solver_errors_generic_amended_witness :
    engineSolve oracleFail "d/dx(x)" = .error "Failed to solve: Failed to compute derivative" ∧
    engineSolve oracleFail "integral(x)" = .error "Failed to solve: Failed to compute integral" ∧
    engineSolve oracleFail "f(x) = dy/dx"
      = .error "Failed to solve: Failed to solve implicit differentiation" :=
  solver_errors_generic_amended oracleFail "d/dx(x)" "integral(x)" "f(x) = dy/dx"
    "parse error" "parse error" (by decide) rfl (by decide) rfl (by decide) rfl

lemma leadsWith_mem {pat l : List Char} {c : Char}
    (h : leadsWith pat l = true) (hc : c ∈ pat) : c ∈ l := by
  induction pat generalizing l with
  | nil => cases hc
  | cons p ps ih =>
    cases l with
    | nil => cases h
    | cons a as =>
      simp only [leadsWith, Bool.and_eq_true, beq_iff_eq] at h
      rcases List.mem_cons.mp hc with hc | hc
      · exact List.mem_cons.mpr (Or.inl (hc.trans h.1))
      · exact List.mem_cons.mpr (Or.inr (ih h.2 hc))

lemma hasSub_mem {pat l : List Char} {c : Char}
    (h : hasSub pat l = true) (hc : c ∈ pat) : c ∈ l := by
  induction l with
  | nil =>
    simp only [hasSub, List.isEmpty_iff] at h
    subst h; cases hc
  | cons a as ih =>
    simp only [hasSub, Bool.or_eq_true] at h
    rcases h with h | h
    · exact leadsWith_mem h hc
    · exact List.mem_cons.mpr (Or.inr (ih h))

lemma mem_mathSymbolsTest {s : String} {c : Char} (h : c ∈ s.data)
    (hc : (c == '+' || c == '-' || c == '*' || c == '/' || c == '^' ||
           c == '(' || c == ')' || c == '=' || c == '∫' || c == '∂') = true) :
    mathSymbolsTest s = true := by
  unfold mathSymbolsTest
  exact List.any_eq_true.mpr ⟨c, h, hc⟩

/-- If an input contains a substring whose characters include a math
symbol, the math-symbol test fires. -/
lemma strContains_symbol {s pat : String} {c : Char}
    (hpat : c ∈ pat.data)
    (hc : (c == '+' || c == '-' || c == '*' || c == '/' || c == '^' ||
           c == '(' || c == ')' || c == '=' || c == '∫' || c == '∂') = true)
    (h : strContains s pat = true) : mathSymbolsTest s = true :=
  mem_mathSymbolsTest (hasSub_mem h hpat) hc

lemma headMatch_paren {l : List Char} (h : headMatch l = true) : '(' ∈ l := by
  unfold headMatch at h
  rw [Bool.and_eq_true] at h
  rcases h with ⟨-, h⟩
  split at h
  next r1 heq =>
    exact List.Sublist.mem
      (show ('(' : Char) ∈ l.dropWhile wordChar by
        rw [heq]; exact List.mem_cons_self _ _)
      (List.dropWhile_sublist wordChar)
  next heq => cases h

lemma scanAux_paren {l : List Char} :
    ∀ {prev}, scanAux prev l = true → '(' ∈ l := by
  induction l with
  | nil => intro prev h; cases h
  | cons c rest ih =>
    intro prev h
    simp only [scanAux, Bool.or_eq_true, Bool.and_eq_true] at h
    rcases h with ⟨-, h⟩ | h
    · exact headMatch_paren h
    · exact List.mem_cons.mpr (Or.inr (ih h))

/-- If the implicit-differentiation regex matches, the input contains a
parenthesis (hence a math symbol). -/
lemma implicitMatch_symbol {s : String} (h : implicitMatch s = true) :
    mathSymbolsTest s = true :=
  mem_mathSymbolsTest (scanAux_paren h) (by decide)

/-- C8: with no language-model service configured the solve action
passes the raw input unchanged to the engine (there is no bridging
step), and an input with no mathematical symbols that matches none of
the classifier substring checks is classified as `Expression` by
default. -/
theorem no_llm_bypass_default_expression
    (o : Oracles) (st : UIState) (input : String)
    (hmath : mathSymbolsTest input = false)
    (hder : strContains input "derivative" = false)
    (hint : strContains input "integral" = false)
    (hlim : strContains input "limit" = false)
    (hsin : strContains input "sin" = false)
    (hcos : strContains input "cos" = false)
    (htan : strContains input "tan" = false)
    (hlog : strContains input "log" = false)
    (hln : strContains input "ln" = false) :
    uiSolve none o st input =
      (if trimJS input = "" then st
       else
         match engineSolve o input with
         | .ok sol => { solution := some sol, history := pushHistory sol st.history }
         | .error _ => st) ∧
    detectCalculusType input = "Expression" := by
  constructor
  · rfl
  · have hsym : ∀ (pat : String) (c : Char), c ∈ pat.data →
        (c == '+' || c == '-' || c == '*' || c == '/' || c == '^' ||
         c == '(' || c == ')' || c == '=' || c == '∫' || c == '∂') = true →
        strContains input pat = false := by
      intro pat c hc hcs
      cases hp : strContains input pat
      · rfl
      · exact absurd (strContains_symbol hc hcs hp) (by simp [hmath])
    have hddx : strContains input "d/dx" = false := hsym "d/dx" '/' (by decide) (by decide)
    have hisign : strContains input "∫" = false := hsym "∫" '∫' (by decide) (by decide)
    have hpart : strContains input "∂" = false := hsym "∂" '∂' (by decide) (by decide)
    have hx2 : strContains input "x^2" = false := hsym "x^2" '^' (by decide) (by decide)
    have hs2 : strContains input "**2" = false := hsym "**2" '*' (by decide) (by decide)
    have heqs : strContains input "=" = false := hsym "=" '=' (by decide) (by decide)
    have himp : implicitMatch input = false := by
      cases hi : implicitMatch input
      · rfl
      · exact absurd (implicitMatch_symbol hi) (by simp [hmath])
    unfold detectCalculusType
    simp [hddx, hder, hint, hisign, hlim, hpart, himp, hx2, hs2, hsin, hcos,
      htan, hlog, hln, heqs]

/-- Witness for C8 at the symbol-free natural-language input. -/
theorem no_llm_bypass_default_expression_witness :
    (uiSolve none oracleFail ⟨none, []⟩ "what is the answer" =
      (if trimJS "what is the answer" = "" then (⟨none, []⟩ : UIState)
       else
         match engineSolve oracleFail "what is the answer" with
         | .ok sol => { solution := some sol,
                        history := pushHistory sol (⟨none, []⟩ : UIState).history }
         | .error _ => ⟨none, []⟩)) ∧
    detectCalculusType "what is the answer" = "Expression" :=
  no_llm_bypass_default_expression oracleFail ⟨none, []⟩ "what is the answer"
    (by decide) (by decide) (by decide) (by decide) (by decide) (by decide)
    (by decide) (by decide) (by decide)

/-- C9 counterexample: the input `x^2 = integral` contains `x^2` and
`=` and does not match the implicit-differentiation regex, yet it is
classified `Integral`, not `Quadratic`, because the integral check runs
before the quadratic one. -/
theorem quadratic_claim_cex :
    strContains "x^2 = integral" "x^2" = true ∧
    strContains "x^2 = integral" "=" = true ∧
    implicitMatch "x^2 = integral" = false ∧
    detectCalculusType "x^2 = integral" = "Integral" ∧
    detectCalculusType "x^2 = integral" ≠ "Quadratic" := by decide

/-- C9 amended: an input containing `x^2` (or `**2`) that also passes
none of the earlier classifier checks (no `d/dx`, `derivative`,
`integral`, `∫`, `limit`, `∂` substring and no implicit-regex match) is
classified `Quadratic`, and the engine routes it to the general
algebraic-simplification branch — in particular
`solveImplicitDifferentiation` is never invoked for it.  This covers
the advertised example `x^2 + y^2 = 25`. -/
theorem quadratic_routing_amended
    (o : Oracles) (e : String)
    (hq : (strContains e "x^2" || strContains e "**2") = true)
    (h1 : strContains e "d/dx" = false)
    (h2 : strContains e "derivative" = false)
    (h3 : strContains e "integral" = false)
    (h4 : strContains e "∫" = false)
    (h5 : strContains e "limit" = false)
    (h6 : strContains e "∂" = false)
    (h7 : implicitMatch e = false) :
    detectCalculusType e = "Quadratic" ∧
    engineSolve o e = wrapOuter (generalSolve o "Quadratic" e) := by
  have hd : detectCalculusType e = "Quadratic" := by
    unfold detectCalculusType
    simp [h1, h2, h3, h4, h5, h6, h7]
    rcases Bool.or_eq_true_iff.mp hq with h | h <;> simp [h]
  refine ⟨hd, ?_⟩
  unfold engineSolve
  rw [hd]
  have n1 : ("Quadratic" : String) ≠ "Derivative" := by decide
  have n2 : ("Quadratic" : String) ≠ "Integral" := by decide
  have n3 : ("Quadratic" : String) ≠ "Implicit Differentiation" := by decide
  show wrapOuter (if _ then _ else if _ then _ else if _ then _ else _) = _
  rw [if_neg n1, if_neg n2, if_neg n3]

/-- Witness for C9 amended at the advertised example `x^2 + y^2 = 25`. -/
theorem quadratic_routing_amended_witness :
    detectCalculusType "x^2 + y^2 = 25" = "Quadratic" ∧
    engineSolve oracleFail "x^2 + y^2 = 25" =
      wrapOuter (generalSolve oracleFail "Quadratic" "x^2 + y^2 = 25") :=
  quadratic_routing_amended oracleFail "x^2 + y^2 = 25"
    (by decide) (by decide) (by decide) (by decide) (by decide) (by decide)
    (by decide) (by decide)
